import Mathlib

/-!
Shallow embedding of the pyaccess library (core facade, pyodbc backend,
mdbtools backend) together with proofs about its specified behaviour.

The embedding models:
* the data model (`ColumnInfo`, `TableInfo`, `DataFrame`, CSV files),
* the error taxonomy (`PyErr`),
* the external collaborators (ODBC driver / SQLAlchemy engine, the
  `mdb-tables` / `mdb-export` command line tools, pandas CSV parsing and
  `DataFrame.query`) as abstract environment records, and
* each public operation of the three backend variants as a pure function
  of the environment, mirroring the Python source line by line.
-/

/-! ## Basic data model (src/pyaccess/models.py) -/

/-- Information about a database column (models.ColumnInfo). -/
structure ColumnInfo where
  name : String
  type : String
  nullable : Bool := true
deriving DecidableEq

/-- Information about a database table (models.TableInfo). -/
structure TableInfo where
  name : String
  columns : List ColumnInfo
  row_count : Option Nat := none
deriving DecidableEq

/-- A scalar cell value of a tabular result. -/
inductive Value where
  | str : String → Value
  | int : Int → Value
  | null : Value
deriving DecidableEq

/-- A pandas DataFrame: ordered column names plus rows of positional values. -/
structure DataFrame where
  cols : List String
  rows : List (List Value)
deriving DecidableEq

/-- The empty frame `pd.DataFrame()`: zero columns, zero rows. -/
def DataFrame.empty : DataFrame := ⟨[], []⟩

/-- pandas `df.head(n)`: for `n ≥ 0` the first `n` rows, for negative `n`
all rows except the last `|n|`. -/
def DataFrame.headPd (df : DataFrame) (n : Int) : DataFrame :=
  if 0 ≤ n then ⟨df.cols, df.rows.take n.toNat⟩
  else ⟨df.cols, df.rows.take (df.rows.length - n.natAbs)⟩

/-- Column projection `df[cs]`: keeps the requested columns in requested
order, reading each value by the column's position in `df.cols`. -/
def DataFrame.select (df : DataFrame) (cs : List String) : DataFrame :=
  ⟨cs, df.rows.map (fun r => cs.map (fun c =>
      match df.cols.indexOf? c with
      | some i => r.getD i Value.null
      | none => Value.null))⟩

/-- A written CSV file: one header row of column names and the data rows
(`df.to_csv(path, index=False)` writes `df.cols` then `df.rows`). -/
structure CsvFile where
  header : List String
  dataRows : List (List Value)
deriving DecidableEq

/-! ## Error taxonomy (src/pyaccess/exceptions.py)

`tableNotFound`, `connectionError` and `operationError` correspond to
`TableNotFoundError`, `DatabaseConnectionError` and the base
`AccessDatabaseError`; `keyError` models a raw Python `KeyError` (which is
NOT part of the `AccessDatabaseError` hierarchy). -/

inductive PyErr where
  | tableNotFound : String → PyErr
  | connectionError : String → PyErr
  | operationError : String → PyErr
  | keyError : String → PyErr
deriving DecidableEq

/-- Python `str(e)` for the exceptions we model (for `KeyError` the stored
string already carries the quoting Python adds). -/
def PyErr.msg : PyErr → String
  | .tableNotFound s => s
  | .connectionError s => s
  | .operationError s => s
  | .keyError s => s

/-! ## Python truthiness of optional arguments

The source guards options with `if columns:`, `if where:`, `if limit:`,
so an empty list, empty string or zero is treated as absent. -/

def optListTruthy (o : Option (List String)) : Bool :=
  match o with
  | some (_ :: _) => true
  | _ => false

def optStrTruthy (o : Option String) : Bool :=
  match o with
  | some s => s ≠ ""
  | none => false

def optIntTruthy (o : Option Int) : Bool :=
  match o with
  | some n => n ≠ 0
  | none => false

/-! ## Python string primitives

Lean's built-in `String.splitOn`, `String.trim` and `String.startsWith`
are opaque to kernel reduction, so the Python string methods the source
uses are modelled by structurally recursive functions on the underlying
character lists. -/

/-- Python `s.startswith(p)`. -/
def pyStartsWith (s p : String) : Bool :=
  p.data.isPrefixOf s.data

/-- Python `s.strip()`: drop leading and trailing whitespace. -/
def pyStrip (s : String) : String :=
  ⟨((s.data.dropWhile Char.isWhitespace).reverse.dropWhile Char.isWhitespace).reverse⟩

/-- Splitting a character list at every occurrence of `sep`
(`"".split(sep) = [""]`, as in Python). -/
def splitOnCharList (sep : Char) : List Char → List (List Char)
  | [] => [[]]
  | c :: cs =>
    if c = sep then [] :: splitOnCharList sep cs
    else
      match splitOnCharList sep cs with
      | [] => [[c]]
      | g :: gs => (c :: g) :: gs

/-- Python `s.split("\n")`. -/
def pySplitNl (s : String) : List String :=
  (splitOnCharList '\n' s.data).map (fun l => ⟨l⟩)

/-! ## Python `str.replace` (used by `_convert_where_clause`)

`s.replace(old, new)` scans left to right and replaces non-overlapping
occurrences of `old`; we model it on character lists. -/

def pyReplaceList (old new : List Char) : List Char → List Char
  | [] => []
  | c :: cs =>
    if old ≠ [] ∧ old.isPrefixOf (c :: cs) then
      new ++ pyReplaceList old new (cs.drop (old.length - 1))
    else
      c :: pyReplaceList old new cs
termination_by l => l.length
decreasing_by
  · simp only [List.length_drop, List.length_cons]
    omega
  · simp [List.length_cons]

/-- Python `s.replace(old, new)` on strings. -/
def pyStrReplace (s old new : String) : String :=
  ⟨pyReplaceList old.data new.data s.data⟩

/-! ## Filter translation (`_convert_where_clause`)

All three copies of the function perform
`where.replace("==", "=").replace('"', "'")`. -/

/-- AccessDatabase._convert_where_clause (core.py lines 152-169). -/
def core_convert_where_clause (w : String) : String :=
  pyStrReplace (pyStrReplace w "==" "=") "\"" "'"

/-- PyodbcBackend._convert_where_clause (pyodbc_backend.py lines 131-148). -/
def pyodbc_convert_where_clause (w : String) : String :=
  pyStrReplace (pyStrReplace w "==" "=") "\"" "'"

/-- MdbtoolsBackend._convert_where_clause (mdbtools_backend.py lines 207-224). -/
def mdbtools_convert_where_clause (w : String) : String :=
  pyStrReplace (pyStrReplace w "==" "=") "\"" "'"

/-! Spec-side description of the rewrite, written from the spec's words:
"replace every occurrence of `==` with `=`; replace every double-quote
character with a single-quote character", with no other change. -/

/-- Modelled from the spec: collapse every (leftmost, non-overlapping)
occurrence of `==` into `=`, leaving all other characters unchanged. -/
def specCollapseEq : List Char → List Char
  | [] => []
  | [c] => [c]
  | c :: d :: rest =>
    if c = '=' ∧ d = '=' then '=' :: specCollapseEq rest
    else c :: specCollapseEq (d :: rest)

/-- Modelled from the spec: replace every double-quote character by a
single-quote character, character by character. -/
def specQuoteSwap (l : List Char) : List Char :=
  l.map (fun c => if c = '"' then '\'' else c)

/-- Modelled from the spec: the full translation rule of §4.2. -/
def spec_where_rewrite (w : String) : String :=
  ⟨specQuoteSwap (specCollapseEq w.data)⟩

theorem pyReplaceList_eqeq (l : List Char) :
    pyReplaceList ['=', '='] ['='] l = specCollapseEq l := by
  induction l using specCollapseEq.induct with
  | case1 =>
    rw [pyReplaceList, specCollapseEq]
  | case2 c =>
    rw [pyReplaceList, specCollapseEq]
    simp only [List.isPrefixOf, Bool.and_eq_true, beq_iff_eq, ne_eq]
    rw [if_neg (by simp), pyReplaceList]
  | case3 c d rest h ih =>
    obtain ⟨hc, hd⟩ := h
    subst hc; subst hd
    rw [pyReplaceList, specCollapseEq]
    simp [List.isPrefixOf, ih]
  | case4 c d rest h ih =>
    rw [pyReplaceList, specCollapseEq]
    have hpre : ¬ (List.isPrefixOf ['=', '='] (c :: d :: rest) = true) := by
      simp only [List.isPrefixOf, Bool.and_eq_true, beq_iff_eq,
        List.isPrefixOf_nil_left, and_true]
      intro ⟨h1, h2⟩
      exact h ⟨h1.symm, h2.symm⟩
    simp [hpre, h, ih]

theorem pyReplaceList_quote (l : List Char) :
    pyReplaceList ['"'] ['\''] l = specQuoteSwap l := by
  induction l with
  | nil => rw [pyReplaceList]; rfl
  | cons c cs ih =>
    rw [pyReplaceList]
    by_cases hc : c = '"'
    · subst hc
      simpa [List.isPrefixOf, specQuoteSwap] using ih
    · have hc2 : ¬ ('"' = c) := fun he => hc he.symm
      simpa [List.isPrefixOf, hc2, hc, specQuoteSwap] using ih

/-! ## Chunked consumption (pd.read_sql(..., chunksize=n))

A chunked read of a result set yields its rows in consecutive groups of
`n`; an empty result set yields no chunks at all. -/

def chunkRowsAux {α : Type} : Nat → Nat → List α → List (List α)
  | _, _, [] => []
  | fuel + 1, n, x :: xs =>
    if n = 0 then [x :: xs]
    else (x :: xs).take n :: chunkRowsAux fuel n ((x :: xs).drop n)
  | 0, _, x :: xs => [x :: xs]

def chunkRows {α : Type} (n : Nat) (l : List α) : List (List α) :=
  chunkRowsAux l.length n l

/-! ## External collaborators of the driver-based variants (spec §6) -/

/-- A raw column record as reported by the pyodbc cursor (`cursor.columns`). -/
structure OdbcColumn where
  column_name : String
  type_name : String
  nullable : Int
deriving DecidableEq

/-- A column record as reported by the SQLAlchemy inspector (`get_columns`). -/
structure SaColumn where
  name : String
  type : String
  nullable : Bool
deriving DecidableEq

/-- Opaque capabilities used by `AccessDatabase` (core.py): the pyodbc
cursor for table/column enumeration and row counting, and the SQLAlchemy
engine for `pd.read_sql`. -/
structure CoreEnv where
  rawTables : List String
  cursorColumns : String → List OdbcColumn
  runSql : String → Except String DataFrame
  countSql : String → Except String Int

/-- Opaque capabilities used by `PyodbcBackend`: the SQLAlchemy inspector
and engine. -/
structure PyoEnv where
  inspTables : List String
  inspColumns : String → List SaColumn
  runSql : String → Except String DataFrame
  countSql : String → Except String Int

/-- Result of one subprocess invocation of an mdbtools command. -/
structure ProcResult where
  returncode : Int
  stdout : String
  stderr : String

/-- Opaque capabilities used by `MdbtoolsBackend`: the `mdb-tables` and
`mdb-export` command line tools, pandas CSV parsing (`pd.read_csv`), the
stdlib `csv.reader` header parse (`none` models `StopIteration`), and the
pandas expression evaluator `DataFrame.query`. -/
structure MdbEnv where
  tablesRun : ProcResult
  exportRun : String → ProcResult
  readCsv : String → Except String DataFrame
  csvHeader : String → Option (List String)
  pandasQuery : String → DataFrame → Except String DataFrame

/-! ## Shared SQL assembly (duplicated verbatim in core.query_table,
core.export_table_to_csv and PyodbcBackend.query_table) -/

/-- Bracketed, comma-joined column list for Access SQL. -/
def sqlColumnList (cols : List String) : String :=
  String.intercalate ", " (cols.map (fun c => "[" ++ c ++ "]"))

/-- The SELECT statement built from `col_list`, the table name, `limit`
(`TOP` clause, only when truthy) and the translated `where` clause. -/
def buildSelectSql (conv : String → String) (colList t : String)
    (limit : Option Int) (whereC : Option String) : String :=
  "SELECT "
  ++ (if optIntTruthy limit then "TOP " ++ toString (limit.getD 0) ++ " " else "")
  ++ colList ++ " FROM [" ++ t ++ "]"
  ++ (if optStrTruthy whereC then " WHERE " ++ conv (whereC.getD "") else "")

/-- Column-list computation of core.query_table lines 205-216: `none`
encodes the early `return pd.DataFrame()` when no requested column is
valid; otherwise the `col_list` string. -/
def coreColumnList (valid : List String) (columns : Option (List String)) :
    Option String :=
  if optListTruthy columns then
    let vrc := (columns.getD []).filter (fun c => valid.contains c)
    if vrc.isEmpty then none else some (sqlColumnList vrc)
  else some "*"

/-! ## AccessDatabase (src/pyaccess/core.py) -/

/-- AccessDatabase.get_tables (core.py 92-105): cached table list minus
names with the `MSys` system prefix; every call returns a copy. -/
def core_get_tables (env : CoreEnv) : List String :=
  env.rawTables.filter (fun n => ¬ pyStartsWith n "MSys")

/-- AccessDatabase._load_schema_cache (core.py 128-150): one pass over all
tables; a table whose cursor column enumeration is empty gets NO entry. -/
def core_schema_cache (env : CoreEnv) : List (String × TableInfo) :=
  (core_get_tables env).filterMap (fun table_name =>
    let columns := (env.cursorColumns table_name).map (fun col =>
      ColumnInfo.mk col.column_name col.type_name (col.nullable == 1))
    if columns.isEmpty then none
    else some (table_name, TableInfo.mk table_name columns none))

/-- AccessDatabase.get_table_info (core.py 107-126). A cache miss for a
listed table surfaces as a raw Python `KeyError`. -/
def core_get_table_info (env : CoreEnv) (t : String) : Except PyErr TableInfo :=
  if t ∉ core_get_tables env then
    .error (.tableNotFound ("Table '" ++ t ++ "' not found"))
  else
    match (core_schema_cache env).lookup t with
    | some ti => .ok ti
    | none => .error (.keyError ("'" ++ t ++ "'"))

/-- AccessDatabase.query_table (core.py 171-250). -/
def core_query_table (env : CoreEnv) (t : String) (columns : Option (List String))
    (whereC : Option String) (limit : Option Int) (chunksize : Option Nat) :
    Except PyErr DataFrame :=
  if t ∉ core_get_tables env then
    .error (.tableNotFound ("Table '" ++ t ++ "' not found"))
  else
    match core_get_table_info env t with
    | .error e => .error e
    | .ok ti =>
      let valid := ti.columns.map (fun c => c.name)
      match coreColumnList valid columns with
      | none => .ok DataFrame.empty
      | some colList =>
        let sql := buildSelectSql core_convert_where_clause colList t limit whereC
        match chunksize with
        | some cs =>
          match env.runSql sql with
          | .error e =>
            .error (.operationError ("Query failed: " ++ sql ++ ". Error: " ++ e))
          | .ok df =>
            let chunks := chunkRows cs df.rows
            if chunks.isEmpty then .ok DataFrame.empty
            else .ok ⟨df.cols, chunks.flatten⟩
        | none =>
          match env.runSql sql with
          | .error e =>
            .error (.operationError ("Query failed: " ++ sql ++ ". Error: " ++ e))
          | .ok df => .ok df

/-- AccessDatabase.get_table_count (core.py 252-272): delegates the count
to the SQL engine; an engine failure propagates untyped. -/
def core_get_table_count (env : CoreEnv) (t : String) : Except PyErr Int :=
  if t ∉ core_get_tables env then
    .error (.tableNotFound ("Table '" ++ t ++ "' not found"))
  else
    match env.countSql ("SELECT COUNT(*) FROM [" ++ t ++ "]") with
    | .ok n => .ok n
    | .error e => .error (.operationError e)

/-- Chunk-writing loop plus empty-result fallback of
AccessDatabase.export_table_to_csv (core.py 319-347). -/
def core_export_chunks (env : CoreEnv) (t colList : String) (valid : List String)
    (columns : Option (List String)) (whereC : Option String) (limit : Option Int)
    (cs : Nat) : Except PyErr CsvFile :=
  let sql := buildSelectSql core_convert_where_clause colList t limit whereC
  match env.runSql sql with
  | .error e => .error (.operationError e)
  | .ok df =>
    let chunks := chunkRows cs df.rows
    if ¬ chunks.isEmpty then .ok ⟨df.cols, chunks.flatten⟩
    else if optListTruthy columns then
      let vrc := (columns.getD []).filter (fun c => valid.contains c)
      .ok ⟨if ¬ vrc.isEmpty then vrc else columns.getD [], []⟩
    else .ok ⟨valid, []⟩

/-- AccessDatabase.export_table_to_csv (core.py 274-351); the produced
file is modelled as header row plus data rows. -/
def core_export_table_to_csv (env : CoreEnv) (t : String)
    (columns : Option (List String)) (whereC : Option String) (limit : Option Int)
    (chunksize : Option Nat) : Except PyErr CsvFile :=
  match chunksize with
  | some cs =>
    if t ∉ core_get_tables env then
      .error (.tableNotFound ("Table '" ++ t ++ "' not found"))
    else
      match core_get_table_info env t with
      | .error e => .error e
      | .ok ti =>
        let valid := ti.columns.map (fun c => c.name)
        if optListTruthy columns then
          let vrc := (columns.getD []).filter (fun c => valid.contains c)
          if vrc.isEmpty then .ok ⟨columns.getD [], []⟩
          else core_export_chunks env t (sqlColumnList vrc) valid columns whereC limit cs
        else core_export_chunks env t "*" valid columns whereC limit cs
  | none =>
    match core_query_table env t columns whereC limit none with
    | .error e => .error e
    | .ok df => .ok ⟨df.cols, df.rows⟩

/-! ## PyodbcBackend (src/pyaccess/backend/pyodbc_backend.py) -/

/-- PyodbcBackend.get_tables (pyodbc_backend.py 79-90): the SQLAlchemy
dialect already filters system tables; every call returns a copy. -/
def pyo_get_tables (env : PyoEnv) : List String :=
  env.inspTables

/-- PyodbcBackend._load_schema_cache (pyodbc_backend.py 113-129): a table
whose inspector column list is empty gets NO entry. -/
def pyo_schema_cache (env : PyoEnv) : List (String × TableInfo) :=
  (pyo_get_tables env).filterMap (fun table_name =>
    let columns := (env.inspColumns table_name).map (fun col =>
      ColumnInfo.mk col.name col.type col.nullable)
    if columns.isEmpty then none
    else some (table_name, TableInfo.mk table_name columns none))

/-- PyodbcBackend.get_table_info (pyodbc_backend.py 92-111). -/
def pyo_get_table_info (env : PyoEnv) (t : String) : Except PyErr TableInfo :=
  if t ∉ pyo_get_tables env then
    .error (.tableNotFound ("Table '" ++ t ++ "' not found"))
  else
    match (pyo_schema_cache env).lookup t with
    | some ti => .ok ti
    | none => .error (.keyError ("'" ++ t ++ "'"))

/-- PyodbcBackend.query_table (pyodbc_backend.py 150-207). -/
def pyo_query_table (env : PyoEnv) (t : String) (columns : Option (List String))
    (whereC : Option String) (limit : Option Int) : Except PyErr DataFrame :=
  if t ∉ pyo_get_tables env then
    .error (.tableNotFound ("Table '" ++ t ++ "' not found"))
  else
    match pyo_get_table_info env t with
    | .error e => .error e
    | .ok ti =>
      let valid := ti.columns.map (fun c => c.name)
      match coreColumnList valid columns with
      | none => .ok DataFrame.empty
      | some colList =>
        let sql := buildSelectSql pyodbc_convert_where_clause colList t limit whereC
        match env.runSql sql with
        | .error e =>
          .error (.operationError ("Query failed: " ++ sql ++ ". Error: " ++ e))
        | .ok df => .ok df

/-- PyodbcBackend.get_table_count (pyodbc_backend.py 209-228). -/
def pyo_get_table_count (env : PyoEnv) (t : String) : Except PyErr Int :=
  if t ∉ pyo_get_tables env then
    .error (.tableNotFound ("Table '" ++ t ++ "' not found"))
  else
    match env.countSql ("SELECT COUNT(*) FROM [" ++ t ++ "]") with
    | .ok n => .ok n
    | .error e => .error (.operationError e)

/-- PyodbcBackend.export_table_to_csv (pyodbc_backend.py 230-252):
query then write. -/
def pyo_export_table_to_csv (env : PyoEnv) (t : String)
    (columns : Option (List String)) (whereC : Option String)
    (limit : Option Int) : Except PyErr CsvFile :=
  match pyo_query_table env t columns whereC limit with
  | .error e => .error e
  | .ok df => .ok ⟨df.cols, df.rows⟩

/-! ## MdbtoolsBackend (src/pyaccess/backend/mdbtools_backend.py) -/

/-- MdbtoolsBackend.get_tables (mdbtools_backend.py 104-129): parses the
`mdb-tables -1` output, dropping blank lines and `MSys`-prefixed names;
a failed invocation raises `AccessDatabaseError`, re-wrapped by the
enclosing `except Exception` handler. -/
def mdb_get_tables (env : MdbEnv) : Except PyErr (List String) :=
  if env.tablesRun.returncode ≠ 0 then
    .error (.operationError
      ("Error getting tables: " ++ "Failed to get tables: " ++ env.tablesRun.stderr))
  else
    .ok ((pySplitNl env.tablesRun.stdout).filterMap (fun line =>
      if pyStrip line ≠ "" ∧ ¬ pyStartsWith line "MSys" then some (pyStrip line)
      else none))

/-- MdbtoolsBackend._get_table_row_count (mdbtools_backend.py 193-205):
line count of a fresh `mdb-export` minus the header, 0 on failure. -/
def mdb_row_count (env : MdbEnv) (t : String) : Nat :=
  let r := env.exportRun t
  if r.returncode == 0 then (pySplitNl (pyStrip r.stdout)).length - 1
  else 0

/-- One table's entry built by MdbtoolsBackend._load_schema_cache
(mdbtools_backend.py 152-191): every listed table gets an entry, either
placeholder columns (failed export) or columns parsed from the CSV header. -/
def mdb_schema_entry (env : MdbEnv) (t : String) : TableInfo :=
  let r := env.exportRun t
  if r.returncode ≠ 0 then
    TableInfo.mk t ((List.range (mdb_row_count env t)).map (fun i =>
      ColumnInfo.mk ("col_" ++ toString i) "Unknown" true)) none
  else
    let lines := pySplitNl (pyStrip r.stdout)
    let columns :=
      if lines.isEmpty then []
      else
        match env.csvHeader (lines.headD "") with
        | some header_row =>
          header_row.map (fun col => ColumnInfo.mk (pyStrip col) "Text" true)
        | none => []
    TableInfo.mk t columns none

/-- MdbtoolsBackend.get_table_info (mdbtools_backend.py 131-150). -/
def mdb_get_table_info (env : MdbEnv) (t : String) : Except PyErr TableInfo :=
  match mdb_get_tables env with
  | .error e => .error e
  | .ok ts =>
    if t ∉ ts then .error (.tableNotFound ("Table '" ++ t ++ "' not found"))
    else
      match (ts.map (fun u => (u, mdb_schema_entry env u))).lookup t with
      | some ti => .ok ti
      | none => .error (.keyError ("'" ++ t ++ "'"))

/-- WHERE-filter and limit stage of MdbtoolsBackend.query_table
(mdbtools_backend.py 280-292): the ORIGINAL `where` string goes straight
to pandas `df.query`; a failure raises `AccessDatabaseError` naming the
offending clause; a truthy limit takes `df.head(limit)`. -/
def mdb_query_where_limit (env : MdbEnv) (whereC : Option String)
    (limit : Option Int) (df : DataFrame) : Except PyErr DataFrame :=
  match (if optStrTruthy whereC then
          match env.pandasQuery (whereC.getD "") df with
          | .ok d => Except.ok d
          | .error e =>
            Except.error (PyErr.operationError
              ("Invalid WHERE clause '" ++ whereC.getD "" ++ "': " ++ e))
         else Except.ok df) with
  | .error e => .error e
  | .ok d => .ok (if optIntTruthy limit then d.headPd (limit.getD 0) else d)

/-- Body of the `try` block of MdbtoolsBackend.query_table
(mdbtools_backend.py 248-292): export the whole table, parse the CSV,
restrict columns (early `return pd.DataFrame()` when no requested column
is valid), then filter and limit. -/
def mdb_query_body (env : MdbEnv) (t : String) (columns : Option (List String))
    (whereC : Option String) (limit : Option Int) : Except PyErr DataFrame :=
  let r := env.exportRun t
  if r.returncode ≠ 0 then
    .error (.operationError ("Failed to export table " ++ t ++ ": " ++ r.stderr))
  else
    match env.readCsv r.stdout with
    | .error e => .error (.operationError e)
    | .ok df =>
      if optListTruthy columns then
        match mdb_get_table_info env t with
        | .error e => .error e
        | .ok ti =>
          let valid := ti.columns.map (fun c => c.name)
          let vrc := (columns.getD []).filter (fun c => valid.contains c)
          if vrc.isEmpty then .ok DataFrame.empty
          else mdb_query_where_limit env whereC limit (df.select vrc)
      else mdb_query_where_limit env whereC limit df

/-- The `except Exception` handler closing MdbtoolsBackend.query_table
(mdbtools_backend.py 296-297): any failure inside the `try` block is
re-wrapped as `AccessDatabaseError("Error querying table ...")`. -/
def wrapMdbQueryError (t : String) :
    Except PyErr DataFrame → Except PyErr DataFrame
  | .error e => .error (.operationError ("Error querying table " ++ t ++ ": " ++ e.msg))
  | .ok df => .ok df

/-- MdbtoolsBackend.query_table (mdbtools_backend.py 226-297). -/
def mdb_query_table (env : MdbEnv) (t : String) (columns : Option (List String))
    (whereC : Option String) (limit : Option Int) : Except PyErr DataFrame :=
  match mdb_get_tables env with
  | .error e => .error e
  | .ok ts =>
    if t ∉ ts then .error (.tableNotFound ("Table '" ++ t ++ "' not found"))
    else wrapMdbQueryError t (mdb_query_body env t columns whereC limit)

/-- MdbtoolsBackend.get_table_count (mdbtools_backend.py 299-316):
`len(self.query_table(table_name))`. -/
def mdb_get_table_count (env : MdbEnv) (t : String) : Except PyErr Int :=
  match mdb_get_tables env with
  | .error e => .error e
  | .ok ts =>
    if t ∉ ts then .error (.tableNotFound ("Table '" ++ t ++ "' not found"))
    else
      match mdb_query_table env t none none none with
      | .error e => .error e
      | .ok df => .ok (df.rows.length : Int)

/-- MdbtoolsBackend.export_table_to_csv (mdbtools_backend.py 318-340):
query then write. -/
def mdb_export_table_to_csv (env : MdbEnv) (t : String)
    (columns : Option (List String)) (whereC : Option String)
    (limit : Option Int) : Except PyErr CsvFile :=
  match mdb_query_table env t columns whereC limit with
  | .error e => .error e
  | .ok df => .ok ⟨df.cols, df.rows⟩

/-! ## Heap-level model of the cached table list

Python lists are mutable heap objects, so the `.copy()` in the three
`get_tables` implementations is observable: we model a store of list
cells addressed by allocation order to express it. -/

structure ListStore where
  cells : List (List String)
deriving DecidableEq

def ListStore.alloc (st : ListStore) (v : List String) : Nat × ListStore :=
  (st.cells.length, ⟨st.cells ++ [v]⟩)

def ListStore.read (st : ListStore) (r : Nat) : List String :=
  st.cells.getD r []

def ListStore.write (st : ListStore) (r : Nat) (v : List String) : ListStore :=
  ⟨st.cells.set r v⟩

structure TablesState where
  store : ListStore
  cache : Option Nat
deriving DecidableEq

/-- The caching-and-copy pattern shared by the three `get_tables`
implementations (core.py 99-105, mdbtools_backend.py 111-129,
pyodbc_backend.py 86-90): populate `_tables_cache` once, then return
`self._tables_cache.copy()`, a freshly allocated cell. -/
def cachedGetTables (tablesList : List String) (s : TablesState) :
    Nat × TablesState :=
  match s.cache with
  | none =>
    let p1 := s.store.alloc tablesList
    let p2 := p1.2.alloc (p1.2.read p1.1)
    (p2.1, ⟨p2.2, some p1.1⟩)
  | some rc =>
    let p2 := s.store.alloc (s.store.read rc)
    (p2.1, ⟨p2.2, some rc⟩)

def initTablesState : TablesState := ⟨⟨[]⟩, none⟩

/-- First `get_tables` call on a fresh object. -/
def c10_first (tablesList : List String) : Nat × TablesState :=
  cachedGetTables tablesList initTablesState

/-- Caller mutates (overwrites) the list returned by the first call. -/
def c10_mutated (tablesList v : List String) : TablesState :=
  ⟨(c10_first tablesList).2.store.write (c10_first tablesList).1 v,
   (c10_first tablesList).2.cache⟩

/-- Second `get_tables` call, after the caller's mutation. -/
def c10_second (tablesList v : List String) : Nat × TablesState :=
  cachedGetTables tablesList (c10_mutated tablesList v)

/-! ## Helper lemmas -/

theorem chunkRowsAux_flatten {α : Type} (fuel n : Nat) (l : List α) :
    (chunkRowsAux fuel n l).flatten = l := by
  induction fuel generalizing l with
  | zero =>
    cases l with
    | nil => rw [chunkRowsAux]; rfl
    | cons x xs => rw [chunkRowsAux]; simp
  | succ f ih =>
    cases l with
    | nil => rw [chunkRowsAux]; rfl
    | cons x xs =>
      rw [chunkRowsAux]
      by_cases hn : n = 0
      · simp [hn]
      · simp only [if_neg hn, List.flatten_cons, ih]
        exact List.take_append_drop n (x :: xs)

theorem chunkRows_flatten {α : Type} (n : Nat) (l : List α) :
    (chunkRows n l).flatten = l :=
  chunkRowsAux_flatten l.length n l

theorem chunkRows_eq_nil_iff {α : Type} (n : Nat) (l : List α) :
    chunkRows n l = [] ↔ l = [] := by
  cases l with
  | nil => rw [chunkRows, chunkRowsAux]; simp
  | cons x xs =>
    rw [chunkRows]
    rw [show (x :: xs).length = xs.length + 1 from rfl, chunkRowsAux]
    constructor
    · intro hc
      by_cases h : n = 0
      · simp [h] at hc
      · simp [h] at hc
    · intro hc; cases hc

theorem lookup_map_self {α β : Type} [DecidableEq α] (f : α → β) (ts : List α)
    (t : α) (ht : t ∈ ts) :
    (ts.map (fun u => (u, f u))).lookup t = some (f t) := by
  induction ts with
  | nil => cases ht
  | cons u us ih =>
    rw [List.map_cons, List.lookup_cons]
    by_cases he : t = u
    · subst he; simp
    · have hmem : t ∈ us := by
        cases List.mem_cons.mp ht with
        | inl h => exact absurd h he
        | inr h => exact h
      have hbe : (t == u) = false := by simp [he]
      simp [hbe, ih hmem]

theorem mdb_get_table_info_listed (env : MdbEnv) (ts : List String) (t : String)
    (hts : mdb_get_tables env = .ok ts) (ht : t ∈ ts) :
    mdb_get_table_info env t = .ok (mdb_schema_entry env t) := by
  rw [mdb_get_table_info, hts]
  simp [ht, lookup_map_self (mdb_schema_entry env) ts t ht]

/-! ## Concrete environments used to instantiate the theorems -/

/-- A driver environment with one table `t` (columns `a`, `b`), whose
engine returns two rows for every query and counts 2. -/
def envA : CoreEnv where
  rawTables := ["t"]
  cursorColumns := fun _ => [⟨"a", "TEXT", 1⟩, ⟨"b", "TEXT", 1⟩]
  runSql := fun _ => .ok ⟨["a"], [[Value.int 1], [Value.int 2]]⟩
  countSql := fun _ => .ok 2

/-- Like `envA` but the engine returns an empty result set. -/
def envAempty : CoreEnv where
  rawTables := ["t"]
  cursorColumns := fun _ => [⟨"a", "TEXT", 1⟩, ⟨"b", "TEXT", 1⟩]
  runSql := fun _ => .ok ⟨["a"], []⟩
  countSql := fun _ => .ok 0

/-- A driver environment whose cursor reports NO columns for the listed
table `t`. -/
def envC3 : CoreEnv where
  rawTables := ["t"]
  cursorColumns := fun _ => []
  runSql := fun _ => .ok DataFrame.empty
  countSql := fun _ => .ok 0

/-- A pyodbc-backend environment with one table `t` (columns `a`, `b`). -/
def envP : PyoEnv where
  inspTables := ["t"]
  inspColumns := fun _ => [⟨"a", "TEXT", true⟩, ⟨"b", "TEXT", true⟩]
  runSql := fun _ => .ok ⟨["a"], [[Value.int 1], [Value.int 2]]⟩
  countSql := fun _ => .ok 2

/-- An mdbtools environment with one table `t` (columns `a`, `b`, two
rows); `DataFrame.query` rejects the filter text `bad (`. -/
def envM : MdbEnv where
  tablesRun := ⟨0, "t\n", ""⟩
  exportRun := fun _ => ⟨0, "a,b\n1,2\n3,4", ""⟩
  readCsv := fun _ => .ok ⟨["a", "b"], [[Value.int 1, Value.int 2], [Value.int 3, Value.int 4]]⟩
  csvHeader := fun _ => some ["a", "b"]
  pandasQuery := fun w df => if w = "bad (" then .error "invalid syntax" else .ok df

/-! # Claim theorems -/

/-- C9: the filter-translation function `_convert_where_clause` is a
deterministic, total textual rewrite — it replaces every occurrence of
`==` by `=` and every double-quote character by a single-quote character,
with no other change — and the three backend variants' copies are
identical functions. -/
theorem C9_convert_where_clause_is_spec_rewrite :
    (∀ w, pyodbc_convert_where_clause w = core_convert_where_clause w) ∧
    (∀ w, mdbtools_convert_where_clause w = core_convert_where_clause w) ∧
    (∀ w, core_convert_where_clause w = spec_where_rewrite w) := by
  refine ⟨fun w => rfl, fun w => rfl, fun w => ?_⟩
  show String.mk (pyReplaceList "\"".data "'".data
        (pyReplaceList "==".data "=".data w.data)) =
      String.mk (specQuoteSwap (specCollapseEq w.data))
  rw [show "==".data = ['=', '='] from rfl, show "=".data = ['='] from rfl,
    show "\"".data = ['"'] from rfl, show "'".data = ['\''] from rfl,
    pyReplaceList_eqeq, pyReplaceList_quote]

/-- C10: `get_tables` returns a fresh copy of the cached table list on
every call: the first call returns cell 1 while the cache lives in cell
0; after the caller overwrites the returned cell with an arbitrary list
`v`, the cache cell still holds the table list, and a subsequent
`get_tables` call still returns the table list. -/
theorem C10_get_tables_returns_fresh_copy :
    ∀ (tablesList v : List String),
      (c10_first tablesList).1 = 1 ∧
      (c10_first tablesList).2.cache = some 0 ∧
      (c10_first tablesList).2.store.read 1 = tablesList ∧
      (c10_mutated tablesList v).store.read 0 = tablesList ∧
      (c10_second tablesList v).2.store.read (c10_second tablesList v).1 = tablesList :=
  fun _ _ => ⟨rfl, rfl, rfl, rfl, rfl⟩

/-- C1: every one of query, describe, count and export on a table name
absent from the cached table list fails with `TableNotFoundError`, on
each of the three backend variants. -/
theorem C1_unknown_table_not_found :
    (∀ (env : CoreEnv) (t : String) (c : Option (List String)) (w : Option String)
        (l : Option Int) (ch : Option Nat), t ∉ core_get_tables env →
      core_query_table env t c w l ch =
        .error (.tableNotFound ("Table '" ++ t ++ "' not found"))) ∧
    (∀ (env : CoreEnv) (t : String), t ∉ core_get_tables env →
      core_get_table_info env t =
        .error (.tableNotFound ("Table '" ++ t ++ "' not found"))) ∧
    (∀ (env : CoreEnv) (t : String), t ∉ core_get_tables env →
      core_get_table_count env t =
        .error (.tableNotFound ("Table '" ++ t ++ "' not found"))) ∧
    (∀ (env : CoreEnv) (t : String) (c : Option (List String)) (w : Option String)
        (l : Option Int) (ch : Option Nat), t ∉ core_get_tables env →
      core_export_table_to_csv env t c w l ch =
        .error (.tableNotFound ("Table '" ++ t ++ "' not found"))) ∧
    (∀ (env : PyoEnv) (t : String) (c : Option (List String)) (w : Option String)
        (l : Option Int), t ∉ pyo_get_tables env →
      pyo_query_table env t c w l =
        .error (.tableNotFound ("Table '" ++ t ++ "' not found"))) ∧
    (∀ (env : PyoEnv) (t : String), t ∉ pyo_get_tables env →
      pyo_get_table_info env t =
        .error (.tableNotFound ("Table '" ++ t ++ "' not found"))) ∧
    (∀ (env : PyoEnv) (t : String), t ∉ pyo_get_tables env →
      pyo_get_table_count env t =
        .error (.tableNotFound ("Table '" ++ t ++ "' not found"))) ∧
    (∀ (env : PyoEnv) (t : String) (c : Option (List String)) (w : Option String)
        (l : Option Int), t ∉ pyo_get_tables env →
      pyo_export_table_to_csv env t c w l =
        .error (.tableNotFound ("Table '" ++ t ++ "' not found"))) ∧
    (∀ (env : MdbEnv) (ts : List String) (t : String) (c : Option (List String))
        (w : Option String) (l : Option Int), mdb_get_tables env = .ok ts → t ∉ ts →
      mdb_query_table env t c w l =
        .error (.tableNotFound ("Table '" ++ t ++ "' not found"))) ∧
    (∀ (env : MdbEnv) (ts : List String) (t : String),
        mdb_get_tables env = .ok ts → t ∉ ts →
      mdb_get_table_info env t =
        .error (.tableNotFound ("Table '" ++ t ++ "' not found"))) ∧
    (∀ (env : MdbEnv) (ts : List String) (t : String),
        mdb_get_tables env = .ok ts → t ∉ ts →
      mdb_get_table_count env t =
        .error (.tableNotFound ("Table '" ++ t ++ "' not found"))) ∧
    (∀ (env : MdbEnv) (ts : List String) (t : String) (c : Option (List String))
        (w : Option String) (l : Option Int), mdb_get_tables env = .ok ts → t ∉ ts →
      mdb_export_table_to_csv env t c w l =
        .error (.tableNotFound ("Table '" ++ t ++ "' not found"))) := by
  refine ⟨?_, ?_, ?_, ?_, ?_, ?_, ?_, ?_, ?_, ?_, ?_, ?_⟩
  · intro env t c w l ch h
    simp [core_query_table, h]
  · intro env t h
    simp [core_get_table_info, h]
  · intro env t h
    simp [core_get_table_count, h]
  · intro env t c w l ch h
    cases ch with
    | none => simp [core_export_table_to_csv, core_query_table, h]
    | some cs => simp [core_export_table_to_csv, h]
  · intro env t c w l h
    simp [pyo_query_table, h]
  · intro env t h
    simp [pyo_get_table_info, h]
  · intro env t h
    simp [pyo_get_table_count, h]
  · intro env t c w l h
    simp [pyo_export_table_to_csv, pyo_query_table, h]
  · intro env ts t c w l hts h
    simp [mdb_query_table, hts, h]
  · intro env ts t hts h
    simp [mdb_get_table_info, hts, h]
  · intro env ts t hts h
    simp [mdb_get_table_count, hts, h]
  · intro env ts t c w l hts h
    simp [mdb_export_table_to_csv, mdb_query_table, hts, h]

/-- Witness for C1: the operations all fail with `TableNotFoundError` for
the unlisted name `x` in concrete environments of each variant. -/
theorem C1_unknown_table_not_found_witness :
    core_query_table envA "x" none none none none =
      .error (.tableNotFound "Table 'x' not found") ∧
    core_get_table_info envA "x" = .error (.tableNotFound "Table 'x' not found") ∧
    core_get_table_count envA "x" = .error (.tableNotFound "Table 'x' not found") ∧
    core_export_table_to_csv envA "x" none none none (some 2) =
      .error (.tableNotFound "Table 'x' not found") ∧
    pyo_query_table envP "x" none none none =
      .error (.tableNotFound "Table 'x' not found") ∧
    pyo_get_table_info envP "x" = .error (.tableNotFound "Table 'x' not found") ∧
    pyo_get_table_count envP "x" = .error (.tableNotFound "Table 'x' not found") ∧
    pyo_export_table_to_csv envP "x" none none none =
      .error (.tableNotFound "Table 'x' not found") ∧
    mdb_query_table envM "x" none none none =
      .error (.tableNotFound "Table 'x' not found") ∧
    mdb_get_table_info envM "x" = .error (.tableNotFound "Table 'x' not found") ∧
    mdb_get_table_count envM "x" = .error (.tableNotFound "Table 'x' not found") ∧
    mdb_export_table_to_csv envM "x" none none none =
      .error (.tableNotFound "Table 'x' not found") :=
  ⟨C1_unknown_table_not_found.1 envA "x" none none none none (by decide),
   C1_unknown_table_not_found.2.1 envA "x" (by decide),
   C1_unknown_table_not_found.2.2.1 envA "x" (by decide),
   C1_unknown_table_not_found.2.2.2.1 envA "x" none none none (some 2) (by decide),
   C1_unknown_table_not_found.2.2.2.2.1 envP "x" none none none (by decide),
   C1_unknown_table_not_found.2.2.2.2.2.1 envP "x" (by decide),
   C1_unknown_table_not_found.2.2.2.2.2.2.1 envP "x" (by decide),
   C1_unknown_table_not_found.2.2.2.2.2.2.2.1 envP "x" none none none (by decide),
   C1_unknown_table_not_found.2.2.2.2.2.2.2.2.1 envM ["t"] "x" none none none rfl (by decide),
   C1_unknown_table_not_found.2.2.2.2.2.2.2.2.2.1 envM ["t"] "x" rfl (by decide),
   C1_unknown_table_not_found.2.2.2.2.2.2.2.2.2.2.1 envM ["t"] "x" rfl (by decide),
   C1_unknown_table_not_found.2.2.2.2.2.2.2.2.2.2.2 envM ["t"] "x" none none none rfl (by decide)⟩

/-- C2: on the mdbtools backend a given filter is evaluated, untranslated,
as a row predicate (pandas `DataFrame.query`) against the in-memory result
of the full-table export; a successful evaluation is returned as the
query result, and a malformed predicate fails with an
`AccessDatabaseError` whose message carries the offending filter text. -/
theorem C2_mdb_filter_evaluated_in_memory :
    ∀ (env : MdbEnv) (ts : List String) (t : String) (w : String) (df : DataFrame),
      mdb_get_tables env = .ok ts → t ∈ ts →
      (env.exportRun t).returncode = 0 →
      env.readCsv (env.exportRun t).stdout = .ok df →
      w ≠ "" →
      (∀ d, env.pandasQuery w df = .ok d →
        mdb_query_table env t none (some w) none = .ok d) ∧
      (∀ e, env.pandasQuery w df = .error e →
        mdb_query_table env t none (some w) none =
          .error (.operationError ("Error querying table " ++ t ++ ": " ++
            ("Invalid WHERE clause '" ++ w ++ "': " ++ e)))) := by
  intro env ts t w df hts ht hrc hcsv hw
  constructor
  · intro d hq
    simp [mdb_query_table, hts, ht, mdb_query_body, hrc, hcsv, optListTruthy,
      mdb_query_where_limit, optStrTruthy, hw, hq, optIntTruthy, wrapMdbQueryError]
  · intro e hq
    simp [mdb_query_table, hts, ht, mdb_query_body, hrc, hcsv, optListTruthy,
      mdb_query_where_limit, optStrTruthy, hw, hq, wrapMdbQueryError, PyErr.msg]

/-- Witness for C2: in `envM` the malformed predicate `bad (` makes the
query fail with an `AccessDatabaseError` whose message contains the
offending filter text. -/
theorem C2_mdb_filter_evaluated_in_memory_witness :
    mdb_query_table envM "t" none (some "bad (") none =
      .error (.operationError
        "Error querying table t: Invalid WHERE clause 'bad (': invalid syntax") :=
  (C2_mdb_filter_evaluated_in_memory envM ["t"] "t" "bad ("
      ⟨["a", "b"], [[Value.int 1, Value.int 2], [Value.int 3, Value.int 4]]⟩
      rfl (by decide) rfl rfl (by decide)).2 "invalid syntax" rfl

/-- C3 counterexample: in `envC3` the table `t` is in the cached table
list, but its cursor column enumeration is empty, so `_load_schema_cache`
creates no entry for it and `get_table_info` fails with a raw `KeyError`
instead of returning a descriptor. -/
theorem C3_schema_cache_gap_counterexample :
    "t" ∈ core_get_tables envC3 ∧
    core_schema_cache envC3 = [] ∧
    core_get_table_info envC3 "t" = .error (.keyError "'t'") :=
  ⟨by decide, rfl, rfl⟩

theorem lookup_filterMap_keyed {β : Type} (F : String → Option (String × β))
    (ts : List String) (t : String) (b : β)
    (hkey : ∀ u r, F u = some r → r.1 = u)
    (ht : t ∈ ts) (hFt : F t = some (t, b)) :
    (ts.filterMap F).lookup t = some b := by
  induction ts with
  | nil => cases ht
  | cons u us ih =>
    rw [List.filterMap_cons]
    cases hFu : F u with
    | none =>
      have hmem : t ∈ us := by
        cases List.mem_cons.mp ht with
        | inl he => subst he; rw [hFt] at hFu; cases hFu
        | inr h => exact h
      exact ih hmem
    | some r =>
      by_cases he : t = u
      · subst he
        rw [hFt] at hFu
        cases hFu
        simp [List.lookup_cons]
      · have hmem : t ∈ us := by
          cases List.mem_cons.mp ht with
          | inl h => exact absurd h he
          | inr h => exact h
        have hr1 : r.1 = u := hkey u r hFu
        have hbe : (t == r.1) = false := by rw [hr1]; simp [he]
        cases r with
        | mk r1 r2 =>
          rw [List.lookup_cons]
          simp only at hbe
          simp [hbe, ih hmem]

/-- C3 (amended): once the schema cache is populated, every listed table
has an entry — unconditionally on the mdbtools variant, and provided the
driver's column discovery reports at least one column for every listed
table on the core and pyodbc variants (tables with an empty column
report are silently skipped there). -/
theorem C3_schema_cache_invariant_amended :
    (∀ (env : CoreEnv) (t : String),
        (∀ u, u ∈ core_get_tables env → env.cursorColumns u ≠ []) →
        t ∈ core_get_tables env →
        ∃ ti, core_get_table_info env t = .ok ti) ∧
    (∀ (env : PyoEnv) (t : String),
        (∀ u, u ∈ pyo_get_tables env → env.inspColumns u ≠ []) →
        t ∈ pyo_get_tables env →
        ∃ ti, pyo_get_table_info env t = .ok ti) ∧
    (∀ (env : MdbEnv) (ts : List String) (t : String),
        mdb_get_tables env = .ok ts → t ∈ ts →
        mdb_get_table_info env t = .ok (mdb_schema_entry env t)) := by
  refine ⟨?_, ?_, ?_⟩
  · intro env t hall ht
    have hne : (env.cursorColumns t).map (fun col =>
        ColumnInfo.mk col.column_name col.type_name (col.nullable == 1)) ≠ [] := by
      intro hmap
      exact hall t ht (List.map_eq_nil_iff.mp hmap)
    refine ⟨TableInfo.mk t ((env.cursorColumns t).map (fun col =>
      ColumnInfo.mk col.column_name col.type_name (col.nullable == 1))) none, ?_⟩
    rw [core_get_table_info, if_neg (not_not_intro ht)]
    have hlk : (core_schema_cache env).lookup t = some (TableInfo.mk t
        ((env.cursorColumns t).map (fun col =>
          ColumnInfo.mk col.column_name col.type_name (col.nullable == 1))) none) := by
      rw [core_schema_cache]
      apply lookup_filterMap_keyed
      · intro u r h
        simp only at h
        by_cases hq : ((env.cursorColumns u).map (fun col =>
            ColumnInfo.mk col.column_name col.type_name (col.nullable == 1))).isEmpty
        · simp [hq] at h
        · simp only [hq, Bool.false_eq_true, if_false] at h
          cases h
          rfl
      · exact ht
      · have hie : ((env.cursorColumns t).map (fun col =>
            ColumnInfo.mk col.column_name col.type_name (col.nullable == 1))).isEmpty
              = false := by
          cases hcc : (env.cursorColumns t).map (fun col =>
              ColumnInfo.mk col.column_name col.type_name (col.nullable == 1)) with
          | nil => exact absurd hcc hne
          | cons a as => rfl
        simp [hie]
    rw [hlk]
  · intro env t hall ht
    have hne : (env.inspColumns t).map (fun col =>
        ColumnInfo.mk col.name col.type col.nullable) ≠ [] := by
      intro hmap
      exact hall t ht (List.map_eq_nil_iff.mp hmap)
    refine ⟨TableInfo.mk t ((env.inspColumns t).map (fun col =>
      ColumnInfo.mk col.name col.type col.nullable)) none, ?_⟩
    rw [pyo_get_table_info, if_neg (not_not_intro ht)]
    have hlk : (pyo_schema_cache env).lookup t = some (TableInfo.mk t
        ((env.inspColumns t).map (fun col =>
          ColumnInfo.mk col.name col.type col.nullable)) none) := by
      rw [pyo_schema_cache]
      apply lookup_filterMap_keyed
      · intro u r h
        simp only at h
        by_cases hq : ((env.inspColumns u).map (fun col =>
            ColumnInfo.mk col.name col.type col.nullable)).isEmpty
        · simp [hq] at h
        · simp only [hq, Bool.false_eq_true, if_false] at h
          cases h
          rfl
      · exact ht
      · have hie : ((env.inspColumns t).map (fun col =>
            ColumnInfo.mk col.name col.type col.nullable)).isEmpty = false := by
          cases hcc : (env.inspColumns t).map (fun col =>
              ColumnInfo.mk col.name col.type col.nullable) with
          | nil => exact absurd hcc hne
          | cons a as => rfl
        simp [hie]
    rw [hlk]
  · intro env ts t hts ht
    exact mdb_get_table_info_listed env ts t hts ht

/-- Witness for C3 (amended): in the concrete environments each listed
table's descriptor is returned. -/
theorem C3_schema_cache_invariant_amended_witness :
    (∃ ti, core_get_table_info envA "t" = .ok ti) ∧
    (∃ ti, pyo_get_table_info envP "t" = .ok ti) ∧
    mdb_get_table_info envM "t" = .ok (mdb_schema_entry envM "t") :=
  ⟨C3_schema_cache_invariant_amended.1 envA "t" (fun _ _ h => List.cons_ne_nil _ _ h) (by decide),
   C3_schema_cache_invariant_amended.2.1 envP "t" (fun _ _ h => List.cons_ne_nil _ _ h) (by decide),
   C3_schema_cache_invariant_amended.2.2 envM ["t"] "t" rfl (by decide)⟩

/-- The SELECT statement issued by the chunked branch of
`export_table_to_csv` (dummy `*` in the early-return case, where no
statement is executed). -/
def core_export_sql (valid : List String) (columns : Option (List String))
    (t : String) (limit : Option Int) (whereC : Option String) : String :=
  buildSelectSql core_convert_where_clause
    (match coreColumnList valid columns with
     | some cl => cl
     | none => "*") t limit whereC

/-- The header the chunked export writes when the result set is empty
(core.py 339-347): the valid requested columns when any, else the
originally requested list; the full valid column list when no columns
were requested. -/
def core_empty_export_header (valid : List String)
    (columns : Option (List String)) : List String :=
  if optListTruthy columns then
    let vrc := (columns.getD []).filter (fun c => valid.contains c)
    if ¬ vrc.isEmpty then vrc else columns.getD []
  else valid

/-- C4 counterexample: table `t` has columns `a`, `b`; exporting with the
requested column list `[a, bogus]`, a chunk size and an empty result set
writes the header `[a]` — the intersection — not the explicitly requested
column list `[a, bogus]` that the claim announces. -/
theorem C4_chunked_export_header_counterexample :
    core_export_table_to_csv envAempty "t" (some ["a", "bogus"]) none none (some 5) =
      .ok ⟨["a"], []⟩ ∧
    (["a"] : List String) ≠ ["a", "bogus"] :=
  ⟨rfl, by decide⟩

/-- C4 (amended): a chunked export whose result set is empty still
creates the file with exactly one header row and zero data rows; the
header is the full valid column list when no columns were requested, and
otherwise the valid requested columns (the intersection) when any exist,
else the originally requested list. -/
theorem C4_chunked_export_empty_result_amended :
    ∀ (env : CoreEnv) (t : String) (columns : Option (List String))
      (whereC : Option String) (limit : Option Int) (cs : Nat)
      (ti : TableInfo) (df : DataFrame),
      t ∈ core_get_tables env →
      (core_schema_cache env).lookup t = some ti →
      env.runSql (core_export_sql (ti.columns.map (fun c => c.name)) columns t limit whereC)
        = .ok df →
      df.rows = [] →
      core_export_table_to_csv env t columns whereC limit (some cs) =
        .ok ⟨core_empty_export_header (ti.columns.map (fun c => c.name)) columns, []⟩ := by
  intro env t columns whereC limit cs ti df ht hlk hrun hdf
  have hinfo : core_get_table_info env t = .ok ti := by
    rw [core_get_table_info, if_neg (not_not_intro ht), hlk]
  have hchunks : chunkRows cs df.rows = [] := (chunkRows_eq_nil_iff cs df.rows).mpr hdf
  rw [core_export_table_to_csv, if_neg (not_not_intro ht), hinfo]
  dsimp only
  by_cases hc : optListTruthy columns
  · rw [if_pos hc]
    by_cases hv : ((columns.getD []).filter (fun c =>
        ((ti.columns.map (fun c => c.name)).contains c))).isEmpty
    · rw [if_pos hv]
      rw [core_empty_export_header, if_pos hc, if_neg (not_not_intro hv)]
    · rw [if_neg hv]
      rw [core_export_chunks]
      have hsql : buildSelectSql core_convert_where_clause
          (sqlColumnList ((columns.getD []).filter (fun c =>
            ((ti.columns.map (fun c => c.name)).contains c)))) t limit whereC =
          core_export_sql (ti.columns.map (fun c => c.name)) columns t limit whereC := by
        rw [core_export_sql, coreColumnList, if_pos hc]
        dsimp only
        rw [if_neg hv]
      dsimp only
      rw [hsql, hrun]
      dsimp only
      rw [hchunks]
      rw [if_neg (not_not_intro (by rfl))]
      rw [if_pos hc]
      rw [if_pos hv]
      rw [core_empty_export_header, if_pos hc]
      dsimp only
      rw [if_pos hv]
  · rw [if_neg hc]
    rw [core_export_chunks]
    have hsql : buildSelectSql core_convert_where_clause "*" t limit whereC =
        core_export_sql (ti.columns.map (fun c => c.name)) columns t limit whereC := by
      rw [core_export_sql, coreColumnList, if_neg hc]
    dsimp only
    rw [hsql, hrun]
    dsimp only
    rw [hchunks]
    rw [if_neg (not_not_intro (by rfl))]
    rw [if_neg hc]
    rw [core_empty_export_header, if_neg hc]

/-- Witness for C4 (amended): exporting table `t` of `envAempty` with the
requested columns `[a, bogus]`, a filter-free empty result and chunk
size 5 yields a header-only file with header `[a]`. -/
theorem C4_chunked_export_empty_result_amended_witness :
    core_export_table_to_csv envAempty "t" (some ["a", "bogus"]) none none (some 5) =
      .ok ⟨core_empty_export_header ["a", "b"] (some ["a", "bogus"]), []⟩ :=
  C4_chunked_export_empty_result_amended envAempty "t" (some ["a", "bogus"]) none none 5
    ⟨"t", [⟨"a", "TEXT", true⟩, ⟨"b", "TEXT", true⟩], none⟩ ⟨["a"], []⟩
    (by decide) rfl rfl rfl

/-- C5 counterexample: on an empty result set the chunked read returns
`pd.DataFrame()` — a zero-column frame — while the unchunked read keeps
the result's column set, so the two results are not equivalent: the
column sets differ. -/
theorem C5_chunked_query_counterexample :
    core_query_table envAempty "t" none none none (some 5) = .ok ⟨[], []⟩ ∧
    core_query_table envAempty "t" none none none none = .ok ⟨["a"], []⟩ ∧
    ([] : List String) ≠ ["a"] :=
  ⟨rfl, rfl, by decide⟩

/-- C5 (amended): a chunked `query_table` call returns exactly the
unchunked result, except that an empty result set collapses to the
zero-column empty frame (row lists always agree; the column set agrees
whenever the result has at least one row). -/
theorem C5_chunked_query_amended :
    ∀ (env : CoreEnv) (t : String) (c : Option (List String)) (w : Option String)
      (l : Option Int) (cs : Nat), 0 < cs →
      core_query_table env t c w l (some cs) =
        (core_query_table env t c w l none).map
          (fun df => if df.rows.isEmpty then DataFrame.empty else df) := by
  intro env t c w l cs _hcs
  rw [core_query_table, core_query_table]
  by_cases hmem : t ∉ core_get_tables env
  · rw [if_pos hmem, if_pos hmem]
    rfl
  · rw [if_neg hmem, if_neg hmem]
    cases hinfo : core_get_table_info env t with
    | error e => rfl
    | ok ti =>
      dsimp only
      cases hcl : coreColumnList (ti.columns.map (fun c => c.name)) c with
      | none => rfl
      | some colList =>
        dsimp only
        cases hrun : env.runSql (buildSelectSql core_convert_where_clause colList t l w) with
        | error e => rfl
        | ok df =>
          dsimp only [Except.map]
          by_cases hrows : df.rows = []
          · have hch : chunkRows cs df.rows = [] := (chunkRows_eq_nil_iff cs df.rows).mpr hrows
            rw [hch]
            rw [if_pos (by rfl)]
            rw [if_pos (by rw [hrows]; rfl)]
          · have hch : ¬ (chunkRows cs df.rows).isEmpty = true := by
              intro hie
              exact hrows ((chunkRows_eq_nil_iff cs df.rows).mp (List.isEmpty_iff.mp hie))
            rw [if_neg hch]
            rw [if_neg (by
              intro hie
              exact hrows (List.isEmpty_iff.mp hie))]
            rw [chunkRows_flatten]

/-- Witness for C5 (amended): with chunk size 2 on `envA` the chunked
call equals the collapsed unchunked call. -/
theorem C5_chunked_query_amended_witness :
    (0 : Nat) < 2 ∧
    core_query_table envA "t" none none none (some 2) =
      (core_query_table envA "t" none none none none).map
        (fun df => if df.rows.isEmpty then DataFrame.empty else df) :=
  ⟨by decide, C5_chunked_query_amended envA "t" none none none 2 (by decide)⟩

theorem wrapMdbQueryError_map (t : String) (m : Except PyErr DataFrame)
    (f : DataFrame → DataFrame) :
    wrapMdbQueryError t (m.map f) = (wrapMdbQueryError t m).map f := by
  cases m with
  | error e => rfl
  | ok df => rfl

theorem mdb_query_where_limit_pos (env : MdbEnv) (w : Option String) (l : Int)
    (df : DataFrame) (hl : 0 < l) :
    mdb_query_where_limit env w (some l) df =
      (mdb_query_where_limit env w none df).map
        (fun d => ⟨d.cols, d.rows.take l.toNat⟩) := by
  have hlt : optIntTruthy (some l) = true := by
    simp only [optIntTruthy, decide_eq_true_eq, ne_eq]
    omega
  rw [mdb_query_where_limit, mdb_query_where_limit]
  by_cases hw : optStrTruthy w
  · rw [if_pos hw]
    cases hq : env.pandasQuery (w.getD "") df with
    | error e => rfl
    | ok d =>
      dsimp only [Except.map, Option.getD]
      rw [if_pos hlt]
      rw [if_neg (show ¬ optIntTruthy none = true by decide)]
      rw [DataFrame.headPd]
      rw [if_pos (le_of_lt hl)]
  · rw [if_neg hw]
    dsimp only [Except.map, Option.getD]
    rw [if_pos hlt]
    rw [if_neg (show ¬ optIntTruthy none = true by decide)]
    rw [DataFrame.headPd]
    rw [if_pos (le_of_lt hl)]

theorem mdb_query_body_pos (env : MdbEnv) (t : String) (c : Option (List String))
    (w : Option String) (l : Int) (hl : 0 < l) :
    mdb_query_body env t c w (some l) =
      (mdb_query_body env t c w none).map
        (fun d => ⟨d.cols, d.rows.take l.toNat⟩) := by
  rw [mdb_query_body, mdb_query_body]
  by_cases hrc : (env.exportRun t).returncode ≠ 0
  · rw [if_pos hrc, if_pos hrc]
    rfl
  · rw [if_neg hrc, if_neg hrc]
    cases hcsv : env.readCsv (env.exportRun t).stdout with
    | error e => rfl
    | ok df =>
      dsimp only
      by_cases hc : optListTruthy c
      · rw [if_pos hc, if_pos hc]
        cases hinfo : mdb_get_table_info env t with
        | error e => rfl
        | ok ti =>
          dsimp only
          by_cases hv : ((c.getD []).filter (fun col =>
              ((ti.columns.map (fun col => col.name)).contains col))).isEmpty
          · rw [if_pos hv, if_pos hv]
            dsimp only [Except.map, DataFrame.empty]
            rw [List.take_nil]
          · rw [if_neg hv, if_neg hv]
            exact mdb_query_where_limit_pos env w l _ hl
      · rw [if_neg hc, if_neg hc]
        exact mdb_query_where_limit_pos env w l df hl

/-- C6 counterexample: a given limit of 0 is falsy for `if limit:` and is
ignored — the mdbtools query on the two-row table `t` returns both rows,
more than the limit allows, and the driver variants build the same SQL
statement with limit 0 as with no limit (no `TOP` clause). -/
theorem C6_limit_zero_counterexample :
    mdb_query_table envM "t" none none (some 0) =
      .ok ⟨["a", "b"], [[Value.int 1, Value.int 2], [Value.int 3, Value.int 4]]⟩ ∧
    ¬ ((2 : Nat) ≤ 0) ∧
    buildSelectSql core_convert_where_clause "*" "t" (some 0) none =
      buildSelectSql core_convert_where_clause "*" "t" none none :=
  ⟨rfl, by decide, rfl⟩

/-- C6 (amended): for every POSITIVE limit, the mdbtools query result is
exactly the head — the first `limit` rows — of the result the same call
produces without a limit (the possibly filtered row sequence), hence has
at most `limit` rows. -/
theorem C6_positive_limit_head :
    ∀ (env : MdbEnv) (t : String) (c : Option (List String)) (w : Option String)
      (l : Int), 0 < l →
      mdb_query_table env t c w (some l) =
        (mdb_query_table env t c w none).map
          (fun df => ⟨df.cols, df.rows.take l.toNat⟩) := by
  intro env t c w l hl
  rw [mdb_query_table, mdb_query_table]
  cases hts : mdb_get_tables env with
  | error e => rfl
  | ok ts =>
    dsimp only
    by_cases hmem : t ∉ ts
    · rw [if_pos hmem, if_pos hmem]
      rfl
    · rw [if_neg hmem, if_neg hmem]
      rw [mdb_query_body_pos env t c w l hl]
      exact wrapMdbQueryError_map t _ _

/-- Witness for C6 (amended): with limit 1 on the two-row table of `envM`
the result is the first row of the unlimited result. -/
theorem C6_positive_limit_head_witness :
    (0 : Int) < 1 ∧
    mdb_query_table envM "t" none none (some 1) =
      (mdb_query_table envM "t" none none none).map
        (fun df => ⟨df.cols, df.rows.take (1 : Int).toNat⟩) :=
  ⟨by decide, C6_positive_limit_head envM "t" none none 1 (by decide)⟩

/-- C7: `get_table_count` agrees with the length of an unrestricted
`query_table` and is non-negative: by construction on the mdbtools
variant; on the driver variants under the assumption that the external
SQL engine is coherent (its `COUNT(*)` answer equals the number of rows
its `SELECT *` returns). -/
theorem C7_count_equals_query_length :
    (∀ (env : MdbEnv) (ts : List String) (t : String),
        mdb_get_tables env = .ok ts → t ∈ ts →
        mdb_get_table_count env t =
          (mdb_query_table env t none none none).map
            (fun df => (df.rows.length : Int)) ∧
        (∀ n, mdb_get_table_count env t = .ok n → 0 ≤ n)) ∧
    (∀ (env : CoreEnv) (t : String) (ti : TableInfo) (n : Int) (df : DataFrame),
        t ∈ core_get_tables env →
        (core_schema_cache env).lookup t = some ti →
        env.countSql ("SELECT COUNT(*) FROM [" ++ t ++ "]") = .ok n →
        env.runSql (buildSelectSql core_convert_where_clause "*" t none none) = .ok df →
        n = (df.rows.length : Int) →
        core_get_table_count env t = .ok n ∧
        core_query_table env t none none none none = .ok df ∧
        0 ≤ n) ∧
    (∀ (env : PyoEnv) (t : String) (ti : TableInfo) (n : Int) (df : DataFrame),
        t ∈ pyo_get_tables env →
        (pyo_schema_cache env).lookup t = some ti →
        env.countSql ("SELECT COUNT(*) FROM [" ++ t ++ "]") = .ok n →
        env.runSql (buildSelectSql pyodbc_convert_where_clause "*" t none none) = .ok df →
        n = (df.rows.length : Int) →
        pyo_get_table_count env t = .ok n ∧
        pyo_query_table env t none none none = .ok df ∧
        0 ≤ n) := by
  refine ⟨?_, ?_, ?_⟩
  · intro env ts t hts ht
    constructor
    · rw [mdb_get_table_count, hts]
      dsimp only
      rw [if_neg (not_not_intro ht)]
      cases hq : mdb_query_table env t none none none with
      | error e => rfl
      | ok df => rfl
    · intro n hn
      rw [mdb_get_table_count, hts] at hn
      dsimp only at hn
      rw [if_neg (not_not_intro ht)] at hn
      cases hq : mdb_query_table env t none none none with
      | error e =>
        rw [hq] at hn
        cases hn
      | ok df =>
        rw [hq] at hn
        dsimp only at hn
        injection hn with h
        rw [← h]
        exact Int.natCast_nonneg _
  · intro env t ti n df ht hlk hcount hrun hn
    have hinfo : core_get_table_info env t = .ok ti := by
      rw [core_get_table_info, if_neg (not_not_intro ht), hlk]
    refine ⟨?_, ?_, ?_⟩
    · rw [core_get_table_count, if_neg (not_not_intro ht), hcount]
    · rw [core_query_table, if_neg (not_not_intro ht), hinfo]
      dsimp only
      rw [show coreColumnList (ti.columns.map (fun c => c.name)) none = some "*" from rfl]
      dsimp only
      rw [hrun]
    · rw [hn]
      exact Int.natCast_nonneg _
  · intro env t ti n df ht hlk hcount hrun hn
    have hinfo : pyo_get_table_info env t = .ok ti := by
      rw [pyo_get_table_info, if_neg (not_not_intro ht), hlk]
    refine ⟨?_, ?_, ?_⟩
    · rw [pyo_get_table_count, if_neg (not_not_intro ht), hcount]
    · rw [pyo_query_table, if_neg (not_not_intro ht), hinfo]
      dsimp only
      rw [show coreColumnList (ti.columns.map (fun c => c.name)) none = some "*" from rfl]
      dsimp only
      rw [hrun]
    · rw [hn]
      exact Int.natCast_nonneg _

/-- Witness for C7: on each concrete environment the count equals the
length of the unrestricted query result. -/
theorem C7_count_equals_query_length_witness :
    (mdb_get_table_count envM "t" =
      (mdb_query_table envM "t" none none none).map
        (fun df => (df.rows.length : Int)) ∧
      (∀ n, mdb_get_table_count envM "t" = .ok n → 0 ≤ n)) ∧
    (core_get_table_count envA "t" = .ok 2 ∧
      core_query_table envA "t" none none none none =
        .ok ⟨["a"], [[Value.int 1], [Value.int 2]]⟩ ∧
      (0 : Int) ≤ 2) ∧
    (pyo_get_table_count envP "t" = .ok 2 ∧
      pyo_query_table envP "t" none none none =
        .ok ⟨["a"], [[Value.int 1], [Value.int 2]]⟩ ∧
      (0 : Int) ≤ 2) :=
  ⟨C7_count_equals_query_length.1 envM ["t"] "t" rfl (by decide),
   C7_count_equals_query_length.2.1 envA "t"
     ⟨"t", [⟨"a", "TEXT", true⟩, ⟨"b", "TEXT", true⟩], none⟩ 2
     ⟨["a"], [[Value.int 1], [Value.int 2]]⟩ (by decide) rfl rfl rfl rfl,
   C7_count_equals_query_length.2.2 envP "t"
     ⟨"t", [⟨"a", "TEXT", true⟩, ⟨"b", "TEXT", true⟩], none⟩ 2
     ⟨["a"], [[Value.int 1], [Value.int 2]]⟩ (by decide) rfl rfl rfl rfl⟩

/-- C8 counterexample: the explicitly requested column list `[]` has an
empty intersection with the columns of table `t`, yet `if columns:`
treats it as absent, so the query returns the FULL result (one column,
two rows) rather than an empty zero-column result. -/
theorem C8_empty_column_list_counterexample :
    core_query_table envA "t" (some []) none none none =
      .ok ⟨["a"], [[Value.int 1], [Value.int 2]]⟩ ∧
    (DataFrame.mk ["a"] [[Value.int 1], [Value.int 2]]).cols.length ≠ 0 :=
  ⟨rfl, by decide⟩

/-- C8 (amended): for every NONEMPTY requested column list whose
intersection with the table's existing columns is empty, `query_table`
returns the empty zero-column frame `pd.DataFrame()` and does not raise,
on all three backend variants. -/
theorem C8_empty_intersection_empty_frame :
    (∀ (env : CoreEnv) (t : String) (cs : List String) (w : Option String)
        (l : Option Int) (ch : Option Nat) (ti : TableInfo),
        t ∈ core_get_tables env →
        (core_schema_cache env).lookup t = some ti →
        cs ≠ [] →
        cs.filter (fun c => ((ti.columns.map (fun col => col.name)).contains c)) = [] →
        core_query_table env t (some cs) w l ch = .ok DataFrame.empty) ∧
    (∀ (env : PyoEnv) (t : String) (cs : List String) (w : Option String)
        (l : Option Int) (ti : TableInfo),
        t ∈ pyo_get_tables env →
        (pyo_schema_cache env).lookup t = some ti →
        cs ≠ [] →
        cs.filter (fun c => ((ti.columns.map (fun col => col.name)).contains c)) = [] →
        pyo_query_table env t (some cs) w l = .ok DataFrame.empty) ∧
    (∀ (env : MdbEnv) (ts : List String) (t : String) (cs : List String)
        (w : Option String) (l : Option Int) (df : DataFrame),
        mdb_get_tables env = .ok ts → t ∈ ts →
        (env.exportRun t).returncode = 0 →
        env.readCsv (env.exportRun t).stdout = .ok df →
        cs ≠ [] →
        cs.filter (fun c =>
          (((mdb_schema_entry env t).columns.map (fun col => col.name)).contains c)) = [] →
        mdb_query_table env t (some cs) w l = .ok DataFrame.empty) := by
  have htruthy : ∀ (cs : List String), cs ≠ [] → optListTruthy (some cs) = true := by
    intro cs hcs
    cases cs with
    | nil => exact absurd rfl hcs
    | cons a as => rfl
  refine ⟨?_, ?_, ?_⟩
  · intro env t cs w l ch ti ht hlk hcs hfil
    have hinfo : core_get_table_info env t = .ok ti := by
      rw [core_get_table_info, if_neg (not_not_intro ht), hlk]
    rw [core_query_table, if_neg (not_not_intro ht), hinfo]
    dsimp only
    rw [show coreColumnList (ti.columns.map (fun c => c.name)) (some cs) = none by
      rw [coreColumnList, if_pos (htruthy cs hcs)]
      dsimp only [Option.getD]
      rw [hfil]
      rw [if_pos (by rfl)]]
  · intro env t cs w l ti ht hlk hcs hfil
    have hinfo : pyo_get_table_info env t = .ok ti := by
      rw [pyo_get_table_info, if_neg (not_not_intro ht), hlk]
    rw [pyo_query_table, if_neg (not_not_intro ht), hinfo]
    dsimp only
    rw [show coreColumnList (ti.columns.map (fun c => c.name)) (some cs) = none by
      rw [coreColumnList, if_pos (htruthy cs hcs)]
      dsimp only [Option.getD]
      rw [hfil]
      rw [if_pos (by rfl)]]
  · intro env ts t cs w l df hts ht hrc hcsv hcs hfil
    have hinfo : mdb_get_table_info env t = .ok (mdb_schema_entry env t) :=
      mdb_get_table_info_listed env ts t hts ht
    rw [mdb_query_table, hts]
    dsimp only
    rw [if_neg (not_not_intro ht)]
    rw [mdb_query_body]
    rw [if_neg (not_not_intro hrc)]
    rw [hcsv]
    dsimp only
    rw [if_pos (htruthy cs hcs), hinfo]
    dsimp only [Option.getD]
    rw [hfil]
    rw [if_pos (by rfl)]
    rfl

/-- Witness for C8 (amended): requesting only nonexistent columns on each
variant yields the empty zero-column frame. -/
theorem C8_empty_intersection_empty_frame_witness :
    core_query_table envA "t" (some ["c1", "c2"]) none none none = .ok DataFrame.empty ∧
    pyo_query_table envP "t" (some ["c1", "c2"]) none none = .ok DataFrame.empty ∧
    mdb_query_table envM "t" (some ["zzz"]) none none = .ok DataFrame.empty :=
  ⟨C8_empty_intersection_empty_frame.1 envA "t" ["c1", "c2"] none none none
     ⟨"t", [⟨"a", "TEXT", true⟩, ⟨"b", "TEXT", true⟩], none⟩
     (by decide) rfl (by decide) (by decide),
   C8_empty_intersection_empty_frame.2.1 envP "t" ["c1", "c2"] none none
     ⟨"t", [⟨"a", "TEXT", true⟩, ⟨"b", "TEXT", true⟩], none⟩
     (by decide) rfl (by decide) (by decide),
   C8_empty_intersection_empty_frame.2.2 envM ["t"] "t" ["zzz"] none none
     ⟨["a", "b"], [[Value.int 1, Value.int 2], [Value.int 3, Value.int 4]]⟩
     rfl (by decide) rfl rfl (by decide) (by decide)⟩
